import Mathlib

/-
Verification development for the travel-agent booking service.

The Go source is shallowly embedded:
* `encoding/json` values are modelled by the inductive `Json`.  the Go float64
  is modelled by `Rat` (only comparison with zero and copying occur in the
  source).  `time.Time` instants are modelled by `Int` on a global timeline;
  since no claim depends on the textual RFC3339 format, the JSON image of an
  instant is `Json.num` of that integer, an isomorphic stand-in for the
  RFC3339 string Go would produce and parse back.
* A raw content string is abstracted by its parse outcome `Content`:
  `Content.invalid` stands for any string that is not syntactically valid
  JSON, `Content.json j` for a string whose parse is `j`.
* Effects (HTTP calls, tool executions, uuid/now generation) are made
  explicit: outbound collaborators are oracle records, and the functions
  return a trace counting the calls the source code performs.
-/

/-- Model of a Go `encoding/json` value (`interface{}` after parsing). -/
inductive Json where
  | null
  | bool (b : Bool)
  | num (q : Rat)
  | str (s : String)
  | arr (elems : List Json)
  | obj (fields : List (String × Json))

/-- Lookup of a key in a JSON object.  the Go decoder processes keys in
order and later occurrences overwrite earlier ones, with the last occurrence winning. -/
def Json.getField (fields : List (String × Json)) (key : String) : Option Json :=
  match fields with
  | [] => none
  | (k, v) :: rest =>
    match Json.getField rest key with
    | some w => some w
    | none => if k = key then some v else none

/-- Go unmarshal of an object field into a `string` struct field:
absent key or JSON null keeps the zero value `""`. -/
def Json.objStr (fields : List (String × Json)) (key : String) : Except Unit String :=
  match Json.getField fields key with
  | none => .ok ""
  | some .null => .ok ""
  | some (.str s) => .ok s
  | some _ => .error ()

/-- Go unmarshal of an object field into a `float64` struct field. -/
def Json.objNum (fields : List (String × Json)) (key : String) : Except Unit Rat :=
  match Json.getField fields key with
  | none => .ok 0
  | some .null => .ok 0
  | some (.num q) => .ok q
  | some _ => .error ()

/-- Go unmarshal of an object field into an `int` struct field: the JSON
number must be integral, otherwise `encoding/json` reports an error. -/
def Json.objInt (fields : List (String × Json)) (key : String) : Except Unit Int :=
  match Json.getField fields key with
  | none => .ok 0
  | some .null => .ok 0
  | some (.num q) => if q.den = 1 then .ok q.num else .error ()
  | some _ => .error ()

/-- Go unmarshal of an object field into a `time.Time` struct field
(instants modelled as integers, see the file header). -/
def Json.objTime (fields : List (String × Json)) (key : String) : Except Unit Int :=
  match Json.getField fields key with
  | none => .ok 0
  | some .null => .ok 0
  | some (.num q) => if q.den = 1 then .ok q.num else .error ()
  | some _ => .error ()

/-- Go unmarshal of an object field into a `*time.Time` struct field:
absent key or JSON null leaves the pointer nil. -/
def Json.objTimeOpt (fields : List (String × Json)) (key : String) : Except Unit (Option Int) :=
  match Json.getField fields key with
  | none => .ok none
  | some .null => .ok none
  | some (.num q) => if q.den = 1 then .ok (some q.num) else .error ()
  | some _ => .error ()

/-- Go unmarshal of an object field into a `*float64` struct field. -/
def Json.objNumOpt (fields : List (String × Json)) (key : String) : Except Unit (Option Rat) :=
  match Json.getField fields key with
  | none => .ok none
  | some .null => .ok none
  | some (.num q) => .ok (some q)
  | some _ => .error ()

/-- Go unmarshal of a JSON array into `[]string`: every element must be a
string; a null element keeps the element's zero value `""`. -/
def Json.asStringList : List Json → Except Unit (List String)
  | [] => .ok []
  | .null :: rest => do
    let r ← Json.asStringList rest
    .ok ("" :: r)
  | .str s :: rest => do
    let r ← Json.asStringList rest
    .ok (s :: r)
  | _ :: _ => .error ()

/-- Go unmarshal of an object field into a `[]string` struct field:
absent key or JSON null keeps the nil slice (modelled `[]`). -/
def Json.objStrList (fields : List (String × Json)) (key : String) : Except Unit (List String) :=
  match Json.getField fields key with
  | none => .ok []
  | some .null => .ok []
  | some (.arr elems) => Json.asStringList elems
  | some _ => .error ()

/-! ## Travel parameter model

`TravelParameters` and `Preferences` are declared, with identical shape and
JSON tags, both in `internal/models/booking.go` and in the `ai` package
(`travelParameterExtraction.go`).  The embedding declares the shape once. -/

/-- The `budget_range` inner struct of `Preferences`. -/
structure BudgetRange where
  min : Option Rat
  max : Option Rat

/-- The `Preferences` struct (source: `internal/models/booking.go`). -/
structure Preferences where
  BudgetRange : BudgetRange
  TravelClass : String
  Activities : List String
  DietaryRestrictions : List String

/-- The `TravelParameters` struct (source: `internal/models/booking.go`). -/
structure TravelParameters where
  DepartureCity : String
  Destination : String
  DepartureDate : Option Int
  ReturnDate : Option Int
  preferences : Preferences

/-- Zero value of `BudgetRange` (Go zero struct). -/
def BudgetRange.zero : BudgetRange := ⟨none, none⟩

/-- Zero value of `Preferences` (Go zero struct). -/
def Preferences.zero : Preferences := ⟨BudgetRange.zero, "", [], []⟩

/-- Zero value of `TravelParameters` (Go zero struct). -/
def TravelParameters.zero : TravelParameters := ⟨"", "", none, none, Preferences.zero⟩

/-- Go unmarshal of a JSON object into `BudgetRange` (tags `min`, `max`). -/
def unmarshalBudgetRange (fields : List (String × Json)) : Except Unit BudgetRange := do
  let mn ← Json.objNumOpt fields "min"
  let mx ← Json.objNumOpt fields "max"
  .ok ⟨mn, mx⟩

/-- Go unmarshal of a JSON object into `Preferences` (tags `budget_range`,
`travel_class`, `activities`, `dietary_restrictions`). -/
def unmarshalPreferences (fields : List (String × Json)) : Except Unit Preferences := do
  let br ← match Json.getField fields "budget_range" with
    | none => Except.ok BudgetRange.zero
    | some .null => Except.ok BudgetRange.zero
    | some (.obj bf) => unmarshalBudgetRange bf
    | some _ => Except.error ()
  let tc ← Json.objStr fields "travel_class"
  let acts ← Json.objStrList fields "activities"
  let diet ← Json.objStrList fields "dietary_restrictions"
  .ok ⟨br, tc, acts, diet⟩

/-- Go `json.Unmarshal` into a `TravelParameters` struct.  A top-level JSON
null is a no-op that keeps the zero value; any other non-object errors. -/
def unmarshalTravelParameters : Json → Except Unit TravelParameters
  | .null => .ok TravelParameters.zero
  | .obj fields => do
    let dc ← Json.objStr fields "departure_city"
    let dest ← Json.objStr fields "destination"
    let dd ← Json.objTimeOpt fields "departure_date"
    let rd ← Json.objTimeOpt fields "return_date"
    let prefs ← match Json.getField fields "preferences" with
      | none => Except.ok Preferences.zero
      | some .null => Except.ok Preferences.zero
      | some (.obj pf) => unmarshalPreferences pf
      | some _ => Except.error ()
    .ok ⟨dc, dest, dd, rd, prefs⟩
  | _ => .error ()

/-- The raw model content string, abstracted by its JSON parse outcome. -/
inductive Content where
  | invalid
  | json (j : Json)

/-- Error taxonomy of a decoding strategy: `malformed` is the structural
parse failure path (Go: "failed to parse/decode ...: %w"), `invalid` the
semantic validation failure carrying the violated rule message
(Go: "invalid ...: %w"). -/
inductive DecodeErr where
  | malformed
  | invalid (rule : String)
deriving DecidableEq

/-- Embeds `TravelDecodingStrategy.validate` (travelParameterExtraction.go).
`now` is the value of `time.Now()` at the call.  The redundant source
re-checks for nil dates after the early returns collapse into the match. -/
def TravelDecodingStrategy.validate (now : Int) (params : TravelParameters) : Option String :=
  if params.DepartureCity = "" then some "departure city is required"
  else if params.Destination = "" then some "destination is required"
  else match params.DepartureDate with
    | none => some "departure date is required"
    | some dd =>
      match params.ReturnDate with
      | none => some "return date is required"
      | some rd =>
        if dd < now then some "departure date cannot be in the past"
        else if rd < dd then some "return date cannot be before departure date"
        else none

/-- Embeds `TravelDecodingStrategy.DecodeResponse` (travelParameterExtraction.go):
structural parse, then semantic validation. -/
def TravelDecodingStrategy.DecodeResponse (now : Int) (content : Content) :
    Except DecodeErr TravelParameters :=
  match content with
  | .invalid => .error .malformed
  | .json j =>
    match unmarshalTravelParameters j with
    | .error _ => .error .malformed
    | .ok params =>
      match TravelDecodingStrategy.validate now params with
      | some rule => .error (.invalid rule)
      | none => .ok params

/-- Embeds `ExtractionDecodingStrategy.validate` is a verbatim textual copy of
`TravelDecodingStrategy.validate` in the source (same file, over the
identically-shaped `models.TravelParameters`). -/
def ExtractionDecodingStrategy.validate : Int → TravelParameters → Option String :=
  TravelDecodingStrategy.validate

/-- Embeds `ExtractionDecodingStrategy.DecodeResponse` is a verbatim textual copy
of `TravelDecodingStrategy.DecodeResponse` in the source. -/
def ExtractionDecodingStrategy.DecodeResponse : Int → Content → Except DecodeErr TravelParameters :=
  TravelDecodingStrategy.DecodeResponse

/-! ## Flight recommendation model (`internal/service/ai/flightRecommendations.go`)

The `ai` package declares its own `Flight` shape (JSON tag `estimated_price`,
no price/currency pair); the `models` package declares a distinct `Flight`
used by the booking orchestrator.  Both are embedded, namespaced. -/

namespace ai

/-- Embeds `ai.Flight` struct (flightRecommendations.go).  `Class` keeps the Go
field name; instants are integers (see file header). -/
structure Flight where
  Airline : String
  FlightNumber : String
  DepartureCity : String
  DepartureTime : Int
  ArrivalCity : String
  ArrivalTime : Int
  Class : String
  EstimatedPrice : Rat
  LayoverCount : Int
  TotalDuration : String
  AvailableSeats : Int
  RecommendationScore : Rat

/-- Embeds `ai.FlightRecommendation` struct (flightRecommendations.go). -/
structure FlightRecommendation where
  Recommendations : List Flight
  Reasoning : String

/-- Embeds `ai.FlightRecommendationRequest` struct (flightRecommendations.go). -/
structure FlightRecommendationRequest where
  DepartureCity : String
  Destination : String
  DepartureDate : Int
  ReturnDate : Int
  Passengers : Int
  MaxBudget : Rat
  PreferredClass : String

/-- Zero value of `ai.Flight` (Go zero struct). -/
def Flight.zero : Flight := ⟨"", "", "", 0, "", 0, "", 0, 0, "", 0, 0⟩

/-- Go unmarshal of a JSON object into an `ai.Flight` (by its JSON tags). -/
def unmarshalFlightFields (fields : List (String × Json)) : Except Unit Flight := do
  let airline ← Json.objStr fields "airline"
  let fn ← Json.objStr fields "flight_number"
  let dc ← Json.objStr fields "departure_city"
  let dt ← Json.objTime fields "departure_time"
  let ac ← Json.objStr fields "arrival_city"
  let at' ← Json.objTime fields "arrival_time"
  let cls ← Json.objStr fields "class"
  let price ← Json.objNum fields "estimated_price"
  let lay ← Json.objInt fields "layover_count"
  let dur ← Json.objStr fields "total_duration"
  let seats ← Json.objInt fields "available_seats"
  let score ← Json.objNum fields "recommendation_score"
  .ok ⟨airline, fn, dc, dt, ac, at', cls, price, lay, dur, seats, score⟩

/-- Go unmarshal of a JSON array element into an `ai.Flight`: the element
must be an object (a null element keeps the zero struct). -/
def unmarshalFlightElem : Json → Except Unit Flight
  | .null => .ok Flight.zero
  | .obj fields => unmarshalFlightFields fields
  | _ => .error ()

/-- Go unmarshal of a JSON array into `[]Flight`. -/
def unmarshalFlightList : List Json → Except Unit (List Flight)
  | [] => .ok []
  | j :: rest => do
    let f ← unmarshalFlightElem j
    let r ← unmarshalFlightList rest
    .ok (f :: r)

/-- Go `json.Unmarshal` into an `ai.FlightRecommendation` struct
(tags `recommendations`, `reasoning`). -/
def unmarshalFlightRecommendation : Json → Except Unit FlightRecommendation
  | .null => .ok ⟨[], ""⟩
  | .obj fields => do
    let recs ← match Json.getField fields "recommendations" with
      | none => Except.ok ([] : List Flight)
      | some .null => Except.ok ([] : List Flight)
      | some (.arr elems) => unmarshalFlightList elems
      | some _ => Except.error ()
    let reasoning ← Json.objStr fields "reasoning"
    .ok ⟨recs, reasoning⟩
  | _ => .error ()

/-- Per-item loop of `FlightRecommendationDecoder.validate`: first violated
rule wins; `i` is the zero-based index (messages use `i+1`). -/
def FlightRecommendationDecoder.validateList (i : Nat) : List Flight → Option String
  | [] => none
  | f :: rest =>
    if f.Airline = "" then some ("missing airline for recommendation " ++ toString (i + 1))
    else if f.FlightNumber = "" then
      some ("missing flight number for recommendation " ++ toString (i + 1))
    else if f.EstimatedPrice ≤ 0 then
      some ("invalid price for recommendation " ++ toString (i + 1))
    else FlightRecommendationDecoder.validateList (i + 1) rest

/-- Embeds `FlightRecommendationDecoder.validate` (flightRecommendations.go). -/
def FlightRecommendationDecoder.validate (rec : FlightRecommendation) : Option String :=
  if rec.Recommendations.length = 0 then some "no flight recommendations provided"
  else match FlightRecommendationDecoder.validateList 0 rec.Recommendations with
    | some e => some e
    | none => if rec.Reasoning = "" then some "missing recommendation reasoning" else none

/-- Embeds `FlightRecommendationDecoder.DecodeResponse` (flightRecommendations.go):
structural parse, then semantic validation. -/
def FlightRecommendationDecoder.DecodeResponse (content : Content) :
    Except DecodeErr FlightRecommendation :=
  match content with
  | .invalid => .error .malformed
  | .json j =>
    match unmarshalFlightRecommendation j with
    | .error _ => .error .malformed
    | .ok rec =>
      match FlightRecommendationDecoder.validate rec with
      | some rule => .error (.invalid rule)
      | none => .ok rec

/-- Go `json.Marshal` of an `ai.Flight`: object keys in struct field order,
the provider-expected shape declared by the system prompt. -/
def marshalFlight (f : Flight) : Json :=
  .obj [("airline", .str f.Airline),
        ("flight_number", .str f.FlightNumber),
        ("departure_city", .str f.DepartureCity),
        ("departure_time", .num f.DepartureTime),
        ("arrival_city", .str f.ArrivalCity),
        ("arrival_time", .num f.ArrivalTime),
        ("class", .str f.Class),
        ("estimated_price", .num f.EstimatedPrice),
        ("layover_count", .num f.LayoverCount),
        ("total_duration", .str f.TotalDuration),
        ("available_seats", .num f.AvailableSeats),
        ("recommendation_score", .num f.RecommendationScore)]

/-- Go `json.Marshal` of an `ai.FlightRecommendation`. -/
def marshalFlightRecommendation (r : FlightRecommendation) : Json :=
  .obj [("recommendations", .arr (r.Recommendations.map marshalFlight)),
        ("reasoning", .str r.Reasoning)]

end ai


/-! ## Tool registry (`internal/service/ai/tools`) -/

namespace tools

/-- A `tools.Tool` (interface in tool.go): the four descriptor accessors
plus `Execute`.  the Go `map[string]interface{}` values are JSON-like object
field lists; a nil map is `none`.  The `context.Context` argument of
`Execute` is opaque to the registry and is dropped; its result
(`interface{}`, error) is an `Except`. -/
structure Tool where
  Name : String
  Description : String
  Parameters : Option (List (String × Json))
  Requirements : Option (List (String × Json))
  Execute : List (String × Json) → Except String Json

/-- Embeds `ToolRegistry.tools`, a keyed collection.  The Go map is modelled as an
association list; `RegisterTool` only ever inserts an absent key, so the
list never holds duplicate names. -/
abbrev ToolRegistry := List (String × Tool)

/-- Embeds `NewToolRegistry()`: the empty registry. -/
def NewToolRegistry : ToolRegistry := []

/-- Map lookup `tr.tools[name]`. -/
def lookupTool (reg : ToolRegistry) (name : String) : Option Tool :=
  match reg with
  | [] => none
  | (k, t) :: rest => if k = name then some t else lookupTool rest name

/-- The typed error taxonomy of `RegisterTool` (message shapes of its
`fmt.Errorf` calls, in source order). -/
inductive RegErr where
  | nilTool
  | duplicate (name : String)
  | nilSchema (name : String)
  | missingType (name : String)
  | missingProperties (name : String)
  | propMissingType (name prop : String)
deriving DecidableEq

/-- Is this `RegisterTool` error one of the invalid-schema cases? -/
def RegErr.isSchemaErr : RegErr → Bool
  | .nilSchema _ => true
  | .missingType _ => true
  | .missingProperties _ => true
  | .propMissingType _ _ => true
  | _ => false

/-- Outcome of `RegisterTool` together with the registry state after the
call (the source mutates `tr.tools` only on the success path).
`panicked` models the Go type assertion
`propSchema.(map[string]interface{})` failing on a non-object property
schema. -/
inductive RegisterResult where
  | ok (reg : ToolRegistry)
  | err (e : RegErr) (reg : ToolRegistry)
  | panicked

/-- Property loop of `RegisterTool`: first declared property whose schema
lacks a `"type"` key; a non-object property schema hits the Go type
assertion (modelled `none` here, surfaced as `panicked` by the caller). -/
def firstBadProp : List (String × Json) → Option (Option String)
  | [] => some none
  | (p, .obj ps) :: rest =>
    if (Json.getField ps "type").isNone then some (some p) else firstBadProp rest
  | (_, _) :: _ => none

/-- Embeds `ToolRegistry.RegisterTool` (registry source, part of the tools
package): nil check, duplicate check, then schema validation; the tool is
added only when every check passes.  `none` models a nil `Tool` interface
value. -/
def RegisterTool (reg : ToolRegistry) (tool : Option Tool) : RegisterResult :=
  match tool with
  | none => .err .nilTool reg
  | some t =>
    if (lookupTool reg t.Name).isSome then .err (.duplicate t.Name) reg
    else match t.Parameters with
      | none => .err (.nilSchema t.Name) reg
      | some ps =>
        if (Json.getField ps "type").isNone then .err (.missingType t.Name) reg
        else if (Json.getField ps "properties").isNone then .err (.missingProperties t.Name) reg
        else match Json.getField ps "properties" with
          | some (.obj props) =>
            match firstBadProp props with
            | none => .panicked
            | some (some p) => .err (.propMissingType t.Name p) reg
            | some none => .ok (reg ++ [(t.Name, t)])
          | _ => .panicked

/-- Embeds `ToolRegistry.GetTool`: map lookup, but a found tool whose parameters
schema is nil is reported as absent. -/
def GetTool (reg : ToolRegistry) (name : String) : Option Tool × Bool :=
  match lookupTool reg name with
  | some t => if t.Parameters.isNone then (none, false) else (some t, true)
  | none => (none, false)

/-- Embeds `ToolRegistry.ListTools`. -/
def ListTools (reg : ToolRegistry) : List Tool := reg.map (·.2)

/-- A provider-specific tool descriptor (`ListMistralTools` entry with keys
name, description, parameters, requirements). -/
structure MistralToolDescriptor where
  name : String
  description : String
  parameters : Option (List (String × Json))
  requirements : Option (List (String × Json))

/-- Embeds `ToolRegistry.ListMistralTools`. -/
def ListMistralTools (reg : ToolRegistry) : List MistralToolDescriptor :=
  reg.map fun (_, t) => ⟨t.Name, t.Description, t.Parameters, t.Requirements⟩

end tools

/-! ## Inference engine (`internal/service/ai/inference.go`) -/

namespace ai

/-- Embeds `model` constant of the engine. -/
def modelName : String := "mistral-large-latest"

/-- A chat message of the provider request. -/
structure AIProviderMsg where
  Role : String
  Content : String

/-- The outbound provider request body built by `ProcessRequest`
(`response_format` is always `{type: "json_object"}`; tools and
tool-choice are optional). -/
structure AIProviderRequest where
  Model : String
  Messages : List AIProviderMsg
  ResponseFormatType : String
  Tools : List tools.MistralToolDescriptor
  ToolChoice : Option String

/-- A tool invocation inside the provider response
(`choices[i].message.tool_calls[j]`); `Arguments` is a JSON-encoded text,
abstracted by its parse outcome. -/
structure ToolCall where
  ID : String
  FunctionName : String
  FunctionArguments : Content

/-- Embeds `choices[i].message` of the provider response.  Its `content` string is
abstracted by its parse outcome, which is what the decoding strategies
consume. -/
structure ProviderMessage where
  Role : String
  Content : Content
  ToolCalls : List ToolCall

/-- One element of `choices` in the provider envelope. -/
structure Choice where
  Message : ProviderMessage
  FinishReason : String

/-- The provider envelope fields the engine reads: `choices` and the
optional `error.message`. -/
structure AIProviderResponse where
  Choices : List Choice
  Error : Option String

/-- One outcome of the outbound HTTP exchange:
transport failure (`httpClient.Do` error, including context deadline),
an OK body that fails envelope JSON decoding, or a decoded envelope. -/
inductive ProviderOutcome where
  | transportError (msg : String)
  | invalidEnvelope
  | response (resp : AIProviderResponse)

/-- The external provider, as an oracle: the outcome of the `i`-th HTTP
call of an invocation, as a function of the request sent. -/
structure ProviderOracle where
  respond : Nat → AIProviderRequest → ProviderOutcome

/-- A `PromptStrategy[R]`: `GetSystemPrompt()` is a pure constant in both
source strategies, `GetUserPrompt` a pure function of the request. -/
structure PromptStrategy (R : Type) where
  GetSystemPrompt : String
  GetUserPrompt : R → String

/-- Embeds `InferenceEngine` state an invocation depends on: the tool registry
(`none` models a nil registry pointer).  The API key and HTTP client only
shape the outbound call, which the oracle absorbs. -/
structure InferenceEngine where
  apiKey : String
  toolRegistry : Option tools.ToolRegistry

/-- Typed error taxonomy of `processToolCalls` (its `fmt.Errorf` shapes). -/
inductive ToolErr where
  | registryNil
  | unknownTool (name : String)
  | invalidArguments
  | executionFailed (name msg : String)
deriving DecidableEq

/-- One collected `{tool_call_id, name, result}` tuple. -/
structure ToolResult where
  tool_call_id : String
  name : String
  result : Json

/-- Typed error taxonomy of `ProcessRequest` (in source order): transport
failure, envelope decode failure, provider-reported error, zero choices,
tool-processing failure, and a decoding-strategy error returned as-is. -/
inductive EngineErr where
  | transport (msg : String)
  | responseDecode
  | provider (msg : String)
  | emptyResponse
  | toolProcessing (e : ToolErr)
  | decodeFailed (e : DecodeErr)
deriving DecidableEq

/-- Go `json.Unmarshal` of a tool-call arguments text into
`map[string]interface{}`: invalid JSON or a non-object, non-null document
errors; null leaves the nil map. -/
def parseToolArguments : Content → Except Unit (List (String × Json))
  | .invalid => .error ()
  | .json (.obj fields) => .ok fields
  | .json .null => .ok []
  | .json _ => .error ()

/-- Loop body of `processToolCalls`: sequentially look up, parse arguments
for, and execute each tool call, stopping at the first failure.  Also
returns the names of the tools whose `Execute` was invoked (the trace of
tool executions, in order). -/
def processToolCallsLoop (reg : tools.ToolRegistry) :
    List ToolCall → Except ToolErr (List ToolResult) × List String
  | [] => (.ok [], [])
  | call :: rest =>
    match tools.GetTool reg call.FunctionName with
    | (_, false) => (.error (.unknownTool call.FunctionName), [])
    | (none, true) => (.error (.unknownTool call.FunctionName), [])
    | (some t, true) =>
      match parseToolArguments call.FunctionArguments with
      | .error _ => (.error .invalidArguments, [])
      | .ok args =>
        match t.Execute args with
        | .error msg => (.error (.executionFailed call.FunctionName msg), [call.FunctionName])
        | .ok result =>
          let (r, names) := processToolCallsLoop reg rest
          (r.map (⟨call.ID, call.FunctionName, result⟩ :: ·), call.FunctionName :: names)

/-- Embeds `InferenceEngine.processToolCalls` (inference.go): nil-registry guard,
then the sequential loop.  The second component is the execution trace. -/
def processToolCalls (reg : Option tools.ToolRegistry) (calls : List ToolCall) :
    Except ToolErr (List ToolResult) × List String :=
  match reg with
  | none => (.error .registryNil, [])
  | some r => processToolCallsLoop r calls

/-- Go `json.Marshal` of the collected `[]map[string]interface{}` tool
results (map keys marshal in sorted order: name, result, tool_call_id). -/
def encodeToolResults (rs : List ToolResult) : Json :=
  .arr (rs.map fun r =>
    .obj [("name", .str r.name), ("result", r.result), ("tool_call_id", .str r.tool_call_id)])

/-- The provider request assembled by `ProcessRequest` steps 1-2: model,
system and user messages, JSON-object response format, and the tool
descriptors with tool-choice "auto" whenever the registry is non-nil and
holds at least one tool. -/
def buildRequest {R : Type} (engine : InferenceEngine) (promptStrategy : PromptStrategy R)
    (request : R) : AIProviderRequest :=
  let base : AIProviderRequest :=
    { Model := modelName
      Messages := [⟨"system", promptStrategy.GetSystemPrompt⟩,
                   ⟨"user", promptStrategy.GetUserPrompt request⟩]
      ResponseFormatType := "json_object"
      Tools := []
      ToolChoice := none }
  match engine.toolRegistry with
  | none => base
  | some reg =>
    if (tools.ListTools reg).length > 0 then
      { base with Tools := tools.ListMistralTools reg, ToolChoice := some "auto" }
    else base

/-- The trace of side effects of one `ProcessRequest` invocation:
how many outbound provider HTTP calls were made, and which tools were
executed (in order). -/
structure EngineTrace where
  providerCalls : Nat
  toolsExecuted : List String
deriving DecidableEq

/-- Embeds `InferenceEngine.ProcessRequest` (inference.go), generic over the
result type `T` and request type `R`.  The decoding strategy is the
function `decode`; the engine returns its result or error unchanged
(wrapped in `EngineErr.decodeFailed` to keep the error union typed). -/
def ProcessRequest {T R : Type} (engine : InferenceEngine) (oracle : ProviderOracle)
    (promptStrategy : PromptStrategy R) (request : R)
    (decode : Content → Except DecodeErr T) : Except EngineErr T × EngineTrace :=
  match oracle.respond 0 (buildRequest engine promptStrategy request) with
  | .transportError msg => (.error (.transport msg), ⟨1, []⟩)
  | .invalidEnvelope => (.error .responseDecode, ⟨1, []⟩)
  | .response resp =>
    match resp.Error with
    | some msg => (.error (.provider msg), ⟨1, []⟩)
    | none =>
      match resp.Choices with
      | [] => (.error .emptyResponse, ⟨1, []⟩)
      | c0 :: _ =>
        if c0.Message.ToolCalls.length > 0 then
          match processToolCalls engine.toolRegistry c0.Message.ToolCalls with
          | (.error e, names) => (.error (.toolProcessing e), ⟨1, names⟩)
          | (.ok results, names) =>
            ((decode (.json (encodeToolResults results))).mapError .decodeFailed, ⟨1, names⟩)
        else
          ((decode c0.Message.Content).mapError .decodeFailed, ⟨1, []⟩)

end ai

/-! ## Booking domain model (`internal/models/booking.go`) and the
orchestrator (booking service, the two-engine `ProcessBooking`) -/

namespace models

/-- The input `models.BookingRequest`: the immutable input (deadline an instant). -/
structure BookingRequest where
  Query : String
  Deadline : Int

/-- Embeds `models.StatusProcessing` (`BookingStatus` is a string type in Go). -/
def StatusProcessing : String := "processing"

/-- Embeds `models.Flight` (the booking-side flight shape, with price/currency). -/
structure Flight where
  Airline : String
  FlightNumber : String
  DepartureCity : String
  DepartureTime : Int
  ArrivalCity : String
  ArrivalTime : Int
  Class : String
  LayoverCount : Int
  TotalDuration : String
  AvailableSeats : Int
  RecommendationScore : Rat
  Price : Rat
  Currency : String
deriving DecidableEq

/-- Embeds `models.FlightRecommendation`. -/
structure FlightRecommendation where
  Recommendations : List Flight
  Reasoning : String

/-- Embeds `models.FlightRecommendationRequest`. -/
structure FlightRecommendationRequest where
  DepartureCity : String
  Destination : String
  DepartureDate : Int
  ReturnDate : Int
  Passengers : Int
  MaxBudget : Rat
  PreferredClass : String

/-- Embeds `models.BookingResponse`. -/
structure BookingResponse where
  ID : String
  Status : String
  Query : String
  Deadline : Int
  FlightDetails : Option Flight
  Message : String
  CreatedAt : Int
  UpdatedAt : Int

end models

namespace service

/-- The collaborators a `ProcessBooking` call depends on:
the two injected engines (`paramExtractor.ProcessRequest` and
`flightRecommender.ProcessRequest` outcomes, with their error values
stringified as Go `error`s), `uuid.New().String()`, and `time.Now()`. -/
structure BookingDeps where
  extract : models.BookingRequest → Except String TravelParameters
  recommend : models.FlightRecommendationRequest → Except String models.FlightRecommendation
  newId : String
  now : Int

/-- Typed error taxonomy of `ProcessBooking` (each constructor is one
`fmt.Errorf` wrapping site in source order: "query cannot be empty",
"parameter extraction failed: AI extraction failed: %w",
"failed to get flight recommendations: AI recommendation failed: %w",
"failed to create booking response: no flight recommendations found"). -/
inductive BookingErr where
  | emptyQuery
  | extractionFailed (msg : String)
  | recommendationFailed (msg : String)
  | noRecommendations
deriving DecidableEq

/-- Outcome of `ProcessBooking`.  `panicked` models the nil-pointer
dereference `*params.DepartureDate` / `*params.ReturnDate` in
`getFlightRecommendations` when the extractor hands back nil dates. -/
inductive BookingOutcome where
  | ok (resp : models.BookingResponse)
  | err (e : BookingErr)
  | panicked

/-- The outbound calls one `ProcessBooking` made: invocations of the
parameter-extraction engine and of the flight-recommendation engine. -/
structure BookingTrace where
  extractCalls : Nat
  recommendCalls : Nat
deriving DecidableEq

/-- Embeds `BookingService.createBookingResponse` (booking service source): fails
when the recommendation list is empty; otherwise builds the response from
the first recommendation.  Fields the source does not set stay at their Go
zero value, and `Currency` is the literal `"USD"`. -/
def createBookingResponse (deps : BookingDeps) (req : models.BookingRequest)
    (params : models.FlightRecommendation) (deadline : Int) : BookingOutcome :=
  match params.Recommendations with
  | [] => .err .noRecommendations
  | first :: _ =>
    .ok
      { ID := deps.newId
        Status := models.StatusProcessing
        Query := req.Query
        Deadline := deadline
        FlightDetails := some
          { Airline := first.Airline
            FlightNumber := first.FlightNumber
            DepartureCity := first.DepartureCity
            DepartureTime := first.DepartureTime
            ArrivalCity := first.ArrivalCity
            ArrivalTime := first.ArrivalTime
            Class := ""
            LayoverCount := 0
            TotalDuration := ""
            AvailableSeats := 0
            RecommendationScore := 0
            Price := first.Price
            Currency := "USD" }
        Message := "Searching for flights to " ++ first.ArrivalCity
        CreatedAt := deps.now
        UpdatedAt := deps.now }

/-- The `models.FlightRecommendationRequest` assembled inside
`getFlightRecommendations` once the two date pointers have been
dereferenced: hardcoded economy class, 2000.0 budget, 1 passenger. -/
def recommendationRequest (params : TravelParameters) (dd rd : Int) :
    models.FlightRecommendationRequest :=
  ⟨params.DepartureCity, params.Destination, dd, rd, 1, 2000, "economy"⟩

/-- Embeds `BookingService.ProcessBooking` (booking service source): empty-query
guard, extraction stage, recommendation stage, response assembly.  The
second component traces how often each engine was invoked. -/
def ProcessBooking (deps : BookingDeps) (req : models.BookingRequest) :
    BookingOutcome × BookingTrace :=
  if req.Query = "" then (.err .emptyQuery, ⟨0, 0⟩)
  else
    match deps.extract ⟨req.Query, req.Deadline⟩ with
    | .error e => (.err (.extractionFailed e), ⟨1, 0⟩)
    | .ok travelParams =>
      match travelParams.DepartureDate, travelParams.ReturnDate with
      | some dd, some rd =>
        match deps.recommend (recommendationRequest travelParams dd rd) with
        | .error e => (.err (.recommendationFailed e), ⟨1, 1⟩)
        | .ok recommendations =>
          (createBookingResponse deps req recommendations req.Deadline, ⟨1, 1⟩)
      | _, _ => (.panicked, ⟨1, 0⟩)

end service

/-! ## Concrete data used by counterexamples and witnesses -/


/-- Extraction output document of the C3 witness: a fully valid
parameter document whose decoding at clock 0 succeeds. -/
def c3Json : Json :=
  .obj [("departure_city", .str "Cucuta"), ("destination", .str "Paris"),
        ("departure_date", .num 100), ("return_date", .num 200)]

/-- The parameters `c3Json` decodes to. -/
def c3Params : TravelParameters := ⟨"Cucuta", "Paris", some 100, some 200, Preferences.zero⟩

/-- Recommended flight of the C3 witness run. -/
def c3Flight : models.Flight :=
  ⟨"KLM", "KL701", "Cucuta", 100, "Paris", 200, "economy", 0, "11h", 3, 8, 900, "USD"⟩

/-- Dependency environment of the C3 witness: the extraction stage always
returns exactly `c3Params`, the decoder-produced value, and the
recommendation stage succeeds, so the run crosses the date-dereference
site and completes. -/
def c3Deps : service.BookingDeps :=
  ⟨fun _ => .ok c3Params, fun _ => .ok ⟨[c3Flight], "best option"⟩, "id-7", 500⟩

/-- Request of the C3 witness run. -/
def c3Req : models.BookingRequest := ⟨"Book Cucuta to Paris", 800⟩

/-- The response the C3 witness run actually produces. -/
def c3Resp : models.BookingResponse :=
  { ID := "id-7"
    Status := "processing"
    Query := "Book Cucuta to Paris"
    Deadline := 800
    FlightDetails := some ⟨"KLM", "KL701", "Cucuta", 100, "Paris", 200, "", 0, "", 0, 0,
      900, "USD"⟩
    Message := "Searching for flights to " ++ "Paris"
    CreatedAt := 500
    UpdatedAt := 500 }

/-- The concrete document refuting C4 as stated: its `return_date` (instant
3) is earlier than its `departure_date` (instant 5), yet at clock 10 the
departure date is also in the past, and that earlier rule wins. -/
def c4Json : Json :=
  .obj [("departure_city", .str "Cucuta"), ("destination", .str "Paris"),
        ("departure_date", .num 5), ("return_date", .num 3)]

/-- First recommended flight used by the C6 counterexample: its currency is
EUR and it carries a class, layover count, duration, seat count and score. -/
def c6Flight : models.Flight :=
  ⟨"AirFrance", "AF123", "Cucuta", 100, "Paris", 200, "business", 1, "10h", 5, 9, 850, "EUR"⟩

/-- Dependency environment of the C6 counterexample: extraction returns
valid parameters, recommendation returns the single flight `c6Flight`. -/
def c6Deps : service.BookingDeps :=
  ⟨fun _ => .ok ⟨"Cucuta", "Paris", some 100, some 200, Preferences.zero⟩,
   fun _ => .ok ⟨[c6Flight], "good match"⟩, "id-42", 1000⟩

/-- Request of the C6 counterexample. -/
def c6Req : models.BookingRequest := ⟨"Book a flight from Cucuta to Paris", 5000⟩

/-- The booking response `ProcessBooking` actually produces in the C6
counterexample run. -/
def c6Resp : models.BookingResponse :=
  { ID := "id-42"
    Status := "processing"
    Query := "Book a flight from Cucuta to Paris"
    Deadline := 5000
    FlightDetails := some ⟨"AirFrance", "AF123", "Cucuta", 100, "Paris", 200, "", 0, "", 0, 0,
      850, "USD"⟩
    Message := "Searching for flights to " ++ "Paris"
    CreatedAt := 1000
    UpdatedAt := 1000 }


/-- Concrete first-registered tool for the C8 witness. -/
def w8Tool : tools.Tool :=
  ⟨"searchFlights", "find flights",
   some [("type", .str "object"), ("properties", .obj [])], none, fun _ => .ok .null⟩

/-- Concrete second tool with the same name for the C8 witness. -/
def w8Tool2 : tools.Tool :=
  ⟨"searchFlights", "a different implementation",
   some [("type", .str "object"), ("properties", .obj [])], none, fun _ => .ok (.str "x")⟩

/-- Concrete tool for the C9 witness: schema declares a "type" but no
"properties" key. -/
def w9Tool : tools.Tool :=
  ⟨"badTool", "schema without properties", some [("type", .str "object")], none,
   fun _ => .ok .null⟩

/-- Concrete flight for the C10 witness. -/
def w10Flight : ai.Flight :=
  ⟨"AirFrance", "AF123", "Cucuta", 100, "Paris", 200, "economy", 850, 0, "10h 30m", 5, 9⟩


/-- Concrete tool for the C1 witness. -/
def w1Tool : tools.Tool :=
  ⟨"getWeather", "weather lookup",
   some [("type", .str "object"), ("properties", .obj [])], none,
   fun _ => .ok (.str "sunny")⟩

/-- Engine for the C1 witness: registry holding `w1Tool`. -/
def w1Engine : ai.InferenceEngine := ⟨"key", some [("getWeather", w1Tool)]⟩

/-- Tool call issued by the mocked provider in the C1 witness. -/
def w1Call : ai.ToolCall := ⟨"call-1", "getWeather", .json (.obj [("city", .str "Paris")])⟩

/-- Provider envelope of the C1 witness: one choice whose message carries
one tool call. -/
def w1Resp : ai.AIProviderResponse := ⟨[⟨⟨"assistant", .json .null, [w1Call]⟩, "tool_calls"⟩], none⟩

/-- Oracle of the C1 witness: every call returns `w1Resp`. -/
def w1Oracle : ai.ProviderOracle := ⟨fun _ _ => .response w1Resp⟩

/-- Prompt strategy of the C1 witness. -/
def w1PS : ai.PromptStrategy Unit := ⟨"sys", fun _ => "user"⟩

/-- Identity decoding strategy of the C1 witness. -/
def w1Decode : Content → Except DecodeErr Content := fun c => .ok c

/-- Collected tool results of the C1 witness run. -/
def w1Results : List ai.ToolResult := [⟨"call-1", "getWeather", .str "sunny"⟩]

/-! ## Theorems -/


/-! ## Helper lemmas about the decoders -/

theorem TravelDecodingStrategy.validate_none {now : Int} {p : TravelParameters}
    (h : TravelDecodingStrategy.validate now p = none) :
    p.DepartureCity ≠ "" ∧ p.Destination ≠ "" ∧
    ∃ dd rd, p.DepartureDate = some dd ∧ p.ReturnDate = some rd ∧ ¬ dd < now ∧ ¬ rd < dd := by
  unfold TravelDecodingStrategy.validate at h
  by_cases h1 : p.DepartureCity = ""
  · simp [h1] at h
  · by_cases h2 : p.Destination = ""
    · simp [h1, h2] at h
    · cases hdd : p.DepartureDate with
      | none => simp [h1, h2, hdd] at h
      | some dd =>
        cases hrd : p.ReturnDate with
        | none => simp [h1, h2, hdd, hrd] at h
        | some rd =>
          simp only [h1, h2, hdd, hrd, if_neg] at h
          by_cases h3 : dd < now
          · simp [h3] at h
          · by_cases h4 : rd < dd
            · simp [h3, h4] at h
            · exact ⟨h1, h2, dd, rd, rfl, rfl, h3, h4⟩

theorem TravelDecodingStrategy.DecodeResponse_ok {now : Int} {c : Content}
    {p : TravelParameters}
    (h : TravelDecodingStrategy.DecodeResponse now c = .ok p) :
    TravelDecodingStrategy.validate now p = none := by
  unfold TravelDecodingStrategy.DecodeResponse at h
  cases c with
  | invalid => exact absurd h (by simp)
  | json j =>
    dsimp only at h
    cases hu : unmarshalTravelParameters j with
    | error e => rw [hu] at h; exact absurd h (by simp)
    | ok q =>
      rw [hu] at h
      dsimp only at h
      cases hv : TravelDecodingStrategy.validate now q with
      | some rule => rw [hv] at h; exact absurd h (by simp)
      | none => rw [hv] at h; dsimp only at h; cases h; exact hv



theorem FlightValidate_none {rec : ai.FlightRecommendation}
    (h : ai.FlightRecommendationDecoder.validate rec = none) :
    rec.Recommendations ≠ [] ∧ rec.Reasoning ≠ "" := by
  unfold ai.FlightRecommendationDecoder.validate at h
  by_cases h0 : rec.Recommendations.length = 0
  · simp [h0] at h
  · refine ⟨fun hnil => h0 (by simp [hnil]), ?_⟩
    cases hv : ai.FlightRecommendationDecoder.validateList 0 rec.Recommendations with
    | some e => simp [h0, hv] at h
    | none =>
      simp only [h0, if_false, ite_false, hv] at h
      by_cases hr : rec.Reasoning = ""
      · simp [hr] at h
      · exact hr

theorem FlightDecodeResponse_ok {c : Content} {r : ai.FlightRecommendation}
    (h : ai.FlightRecommendationDecoder.DecodeResponse c = .ok r) :
    ai.FlightRecommendationDecoder.validate r = none := by
  unfold ai.FlightRecommendationDecoder.DecodeResponse at h
  cases c with
  | invalid => exact absurd h (by simp)
  | json j =>
    dsimp only at h
    cases hu : ai.unmarshalFlightRecommendation j with
    | error e => rw [hu] at h; exact absurd h (by simp)
    | ok q =>
      rw [hu] at h
      dsimp only at h
      cases hv : ai.FlightRecommendationDecoder.validate q with
      | some rule => rw [hv] at h; exact absurd h (by simp)
      | none => rw [hv] at h; dsimp only at h; cases h; exact hv

/-- C5: the flight-recommendation decoder succeeds only on documents with a
non-empty recommendations list and non-empty reasoning text, and any parsed
document with an empty recommendations array is rejected with the
"no flight recommendations provided" rule even though it is structurally
valid JSON. -/
theorem C5_recommendation_decoder_invariants :
    (∀ (c : Content) (r : ai.FlightRecommendation),
      ai.FlightRecommendationDecoder.DecodeResponse c = .ok r →
      r.Recommendations ≠ [] ∧ r.Reasoning ≠ "") ∧
    (∀ (j : Json) (rec : ai.FlightRecommendation),
      ai.unmarshalFlightRecommendation j = .ok rec →
      rec.Recommendations = [] →
      ai.FlightRecommendationDecoder.DecodeResponse (.json j) =
        .error (.invalid "no flight recommendations provided")) := by
  constructor
  · intro c r h
    exact FlightValidate_none (FlightDecodeResponse_ok h)
  · intro j rec hu hempty
    unfold ai.FlightRecommendationDecoder.DecodeResponse
    dsimp only
    rw [hu]
    dsimp only
    have hv : ai.FlightRecommendationDecoder.validate rec =
        some "no flight recommendations provided" := by
      unfold ai.FlightRecommendationDecoder.validate
      rw [hempty]
      rfl
    rw [hv]

/-- C5 witness: the concrete structurally-valid document with an empty
recommendations array is rejected with the first-rule error. -/
theorem C5_recommendation_decoder_invariants_witness :
    ai.FlightRecommendationDecoder.DecodeResponse
      (.json (.obj [("recommendations", .arr []), ("reasoning", .str "ok")])) =
      .error (.invalid "no flight recommendations provided") :=
  C5_recommendation_decoder_invariants.2
    (.obj [("recommendations", .arr []), ("reasoning", .str "ok")]) ⟨[], "ok"⟩ rfl rfl

/-- C7: a content string that is not syntactically valid JSON makes every
decoding strategy (both extraction decoders and the flight-recommendation
decoder) fail with the structural-parse error, independent of the clock,
before any semantic validation rule is consulted. -/
theorem C7_invalid_json_structural (now : Int) :
    TravelDecodingStrategy.DecodeResponse now .invalid = .error .malformed ∧
    ExtractionDecodingStrategy.DecodeResponse now .invalid = .error .malformed ∧
    ai.FlightRecommendationDecoder.DecodeResponse .invalid = .error .malformed :=
  ⟨rfl, rfl, rfl⟩



theorem createBookingResponse_not_panicked (deps : service.BookingDeps)
    (req : models.BookingRequest) (params : models.FlightRecommendation) (deadline : Int) :
    service.createBookingResponse deps req params deadline ≠ .panicked := by
  unfold service.createBookingResponse
  cases params.Recommendations <;> simp

/-- C3: every `TravelParameters` the extraction decoding strategy returns
successfully has a non-empty departure city, a non-empty destination and
both dates present; consequently, whenever the extraction stage of the orchestrator
stage only hands back values produced by this decoder, the dereference of
the two date pointers while building the `FlightRecommendationRequest`
cannot hit nil and `ProcessBooking` never panics. -/
theorem C3_extraction_success_invariant :
    (∀ (now : Int) (c : Content) (p : TravelParameters),
      ExtractionDecodingStrategy.DecodeResponse now c = .ok p →
      p.DepartureCity ≠ "" ∧ p.Destination ≠ "" ∧
      p.DepartureDate.isSome ∧ p.ReturnDate.isSome) ∧
    (∀ (deps : service.BookingDeps) (req : models.BookingRequest),
      (∀ r p, deps.extract r = .ok p →
        ∃ now c, ExtractionDecodingStrategy.DecodeResponse now c = .ok p) →
      (service.ProcessBooking deps req).1 ≠ service.BookingOutcome.panicked) := by
  have inv : ∀ (now : Int) (c : Content) (p : TravelParameters),
      ExtractionDecodingStrategy.DecodeResponse now c = .ok p →
      p.DepartureCity ≠ "" ∧ p.Destination ≠ "" ∧
      p.DepartureDate.isSome ∧ p.ReturnDate.isSome := by
    intro now c p h
    unfold ExtractionDecodingStrategy.DecodeResponse at h
    obtain ⟨h1, h2, dd, rd, hdd, hrd, -, -⟩ :=
      TravelDecodingStrategy.validate_none (TravelDecodingStrategy.DecodeResponse_ok h)
    exact ⟨h1, h2, by simp [hdd], by simp [hrd]⟩
  refine ⟨inv, ?_⟩
  intro deps req hext
  unfold service.ProcessBooking
  by_cases hq : req.Query = ""
  · simp [hq]
  · rw [if_neg hq]
    cases hex : deps.extract ⟨req.Query, req.Deadline⟩ with
    | error e => simp
    | ok tp =>
      obtain ⟨now, c, hdec⟩ := hext _ _ hex
      obtain ⟨-, -, hds, hrs⟩ := inv now c tp hdec
      obtain ⟨dd, hdd⟩ := Option.isSome_iff_exists.mp hds
      obtain ⟨rd, hrd⟩ := Option.isSome_iff_exists.mp hrs
      dsimp only
      rw [hdd, hrd]
      dsimp only
      cases hrec : deps.recommend (service.recommendationRequest tp dd rd) with
      | error e => simp
      | ok recommendations =>
        dsimp only
        intro hcontra
        exact createBookingResponse_not_panicked deps req recommendations req.Deadline hcontra

/-- C3 witness: the decoder succeeds on the concrete document `c3Json`,
establishing the four invariants at that value; the dependency environment
`c3Deps` hands back exactly that decoder-produced value, so the factoring
hypothesis is discharged non-vacuously, the run crosses the
date-dereference site, completes with the concrete response `c3Resp`,
and in particular does not panic. -/
theorem C3_extraction_success_invariant_witness :
    (ExtractionDecodingStrategy.DecodeResponse 0 (.json c3Json) = .ok c3Params ∧
      c3Params.DepartureCity ≠ "" ∧ c3Params.Destination ≠ "" ∧
      c3Params.DepartureDate.isSome ∧ c3Params.ReturnDate.isSome) ∧
    (service.ProcessBooking c3Deps c3Req).1 = .ok c3Resp ∧
    (service.ProcessBooking c3Deps c3Req).1 ≠ service.BookingOutcome.panicked :=
  ⟨⟨rfl, C3_extraction_success_invariant.1 0 (.json c3Json) c3Params rfl⟩, rfl,
    C3_extraction_success_invariant.2 c3Deps c3Req
      (fun r p h => ⟨0, .json c3Json, by
        have h' := Except.ok.inj h
        subst h'
        rfl⟩)⟩


/-- C4 counterexample: a document with `return_date` before `departure_date`
whose decoding fails with the past-departure error, not the date-ordering
error, refuting the claim that every such document yields the
date-ordering error. -/
theorem C4_counterexample :
    unmarshalTravelParameters c4Json =
      .ok ⟨"Cucuta", "Paris", some 5, some 3, Preferences.zero⟩ ∧
    ((3 : Int) < 5) ∧
    TravelDecodingStrategy.DecodeResponse 10 (.json c4Json) =
      .error (.invalid "departure date cannot be in the past") ∧
    DecodeErr.invalid "departure date cannot be in the past" ≠
      DecodeErr.invalid "return date cannot be before departure date" :=
  ⟨rfl, by norm_num, rfl, by decide⟩

/-- C4 amended: a parsed document whose `return_date` is earlier than its
`departure_date` fails with the date-ordering error whenever the rules
checked earlier (non-empty cities, both dates present, departure not in
the past) hold; and in every case decoding never returns a value whose
return date precedes its departure date — the dates are neither swapped
nor accepted. -/
theorem C4_date_ordering_amended :
    (∀ (now : Int) (j : Json) (p : TravelParameters) (dd rd : Int),
      unmarshalTravelParameters j = .ok p →
      p.DepartureCity ≠ "" → p.Destination ≠ "" →
      p.DepartureDate = some dd → p.ReturnDate = some rd →
      ¬ dd < now → rd < dd →
      TravelDecodingStrategy.DecodeResponse now (.json j) =
        .error (.invalid "return date cannot be before departure date")) ∧
    (∀ (now : Int) (c : Content) (p : TravelParameters) (dd rd : Int),
      TravelDecodingStrategy.DecodeResponse now c = .ok p →
      p.DepartureDate = some dd → p.ReturnDate = some rd → ¬ rd < dd) := by
  constructor
  · intro now j p dd rd hu h1 h2 hdd hrd h3 h4
    unfold TravelDecodingStrategy.DecodeResponse
    dsimp only
    rw [hu]
    dsimp only
    have hv : TravelDecodingStrategy.validate now p =
        some "return date cannot be before departure date" := by
      unfold TravelDecodingStrategy.validate
      rw [if_neg h1, if_neg h2, hdd, hrd]
      dsimp only
      rw [if_neg h3, if_pos h4]
    rw [hv]
  · intro now c p dd rd h hdd hrd
    obtain ⟨-, -, dd', rd', hdd', hrd', -, h4⟩ :=
      TravelDecodingStrategy.validate_none (TravelDecodingStrategy.DecodeResponse_ok h)
    rw [hdd] at hdd'
    rw [hrd] at hrd'
    cases hdd'
    cases hrd'
    exact h4

/-- C4 witness: the amended theorem at a concrete otherwise-valid document
with swapped dates, judged at clock 0. -/
theorem C4_date_ordering_amended_witness :
    TravelDecodingStrategy.DecodeResponse 0
      (.json (.obj [("departure_city", .str "Cucuta"), ("destination", .str "Paris"),
                    ("departure_date", .num 5), ("return_date", .num 3)])) =
      .error (.invalid "return date cannot be before departure date") :=
  C4_date_ordering_amended.1 0
    (.obj [("departure_city", .str "Cucuta"), ("destination", .str "Paris"),
           ("departure_date", .num 5), ("return_date", .num 3)])
    ⟨"Cucuta", "Paris", some 5, some 3, Preferences.zero⟩ 5 3
    rfl (by decide) (by decide) rfl rfl (by norm_num) (by norm_num)



/-- C2: a booking request with an empty query is rejected immediately with
the empty-query error, and neither the parameter-extraction engine nor the
flight-recommendation engine is invoked. -/
theorem C2_empty_query (deps : service.BookingDeps) (req : models.BookingRequest)
    (h : req.Query = "") :
    service.ProcessBooking deps req = (.err .emptyQuery, ⟨0, 0⟩) := by
  unfold service.ProcessBooking
  rw [if_pos h]

/-- C2 witness: the empty-query rejection with zero engine calls at a
concrete dependency environment. -/
theorem C2_empty_query_witness :
    service.ProcessBooking ⟨fun _ => .error "e", fun _ => .error "e", "id", 7⟩ ⟨"", 3⟩ =
      (.err .emptyQuery, ⟨0, 0⟩) :=
  C2_empty_query ⟨fun _ => .error "e", fun _ => .error "e", "id", 7⟩ ⟨"", 3⟩ rfl

/-- C6 counterexample: a successful `ProcessBooking` run whose chosen
Flight is NOT the first element of the decoded recommendation list: the
currency is overwritten with the literal "USD" and the class, layover
count, duration, seat count and score fields are dropped to zero values. -/
theorem C6_counterexample :
    (service.ProcessBooking c6Deps c6Req).1 = .ok c6Resp ∧
    (c6Deps.recommend (service.recommendationRequest
        ⟨"Cucuta", "Paris", some 100, some 200, Preferences.zero⟩ 100 200)).map
      (fun rec => rec.Recommendations.head?) = .ok (some c6Flight) ∧
    c6Resp.FlightDetails ≠ some c6Flight :=
  ⟨rfl, rfl, by decide⟩



/-- C6 amended: every successful `ProcessBooking` returns a response with
the generated identifier, status "processing", the request's query and
deadline copied unchanged, both timestamps set to now, and — in place of
the stated "first element as the chosen Flight" — a chosen Flight that is
the PROJECTION of the first decoded recommendation (airline, flight
number, cities, times, price) with `Currency` hardcoded to "USD" and the
remaining fields left at their zero values, plus a message naming that
arrival city of that flight. -/
theorem C6_booking_response_amended
    (deps : service.BookingDeps) (req : models.BookingRequest)
    (resp : models.BookingResponse)
    (h : (service.ProcessBooking deps req).1 = .ok resp) :
    resp.ID = deps.newId ∧ resp.Status = "processing" ∧ resp.Query = req.Query ∧
    resp.Deadline = req.Deadline ∧ resp.CreatedAt = deps.now ∧ resp.UpdatedAt = deps.now ∧
    ∃ (first : models.Flight),
      (∃ params dd rd rec,
        deps.extract ⟨req.Query, req.Deadline⟩ = .ok params ∧
        params.DepartureDate = some dd ∧ params.ReturnDate = some rd ∧
        deps.recommend (service.recommendationRequest params dd rd) = .ok rec ∧
        rec.Recommendations.head? = some first) ∧
      resp.FlightDetails = some ⟨first.Airline, first.FlightNumber, first.DepartureCity,
        first.DepartureTime, first.ArrivalCity, first.ArrivalTime, "", 0, "", 0, 0,
        first.Price, "USD"⟩ ∧
      resp.Message = "Searching for flights to " ++ first.ArrivalCity := by
  unfold service.ProcessBooking at h
  by_cases hq : req.Query = ""
  · rw [if_pos hq] at h
    exact absurd h (by simp)
  · rw [if_neg hq] at h
    cases hex : deps.extract ⟨req.Query, req.Deadline⟩ with
    | error e => rw [hex] at h; exact absurd h (by simp)
    | ok params =>
      rw [hex] at h
      dsimp only at h
      cases hdd : params.DepartureDate with
      | none =>
        rw [hdd] at h
        cases params.ReturnDate <;> exact absurd h (by simp)
      | some dd =>
        cases hrd : params.ReturnDate with
        | none => rw [hdd, hrd] at h; exact absurd h (by simp)
        | some rd =>
          rw [hdd, hrd] at h
          dsimp only at h
          cases hrec : deps.recommend (service.recommendationRequest params dd rd) with
          | error e => rw [hrec] at h; exact absurd h (by simp)
          | ok rec =>
            rw [hrec] at h
            dsimp only at h
            unfold service.createBookingResponse at h
            cases hrecs : rec.Recommendations with
            | nil => rw [hrecs] at h; exact absurd h (by simp)
            | cons first rest =>
              rw [hrecs] at h
              dsimp only at h
              cases h
              refine ⟨rfl, rfl, rfl, rfl, rfl, rfl, first,
                ⟨params, dd, rd, rec, rfl, hdd, hrd, hrec, by rw [hrecs]; rfl⟩, rfl, rfl⟩

/-- C6 amended witness: the amended field description at the concrete
counterexample run. -/
theorem C6_booking_response_amended_witness :
    c6Resp.ID = c6Deps.newId ∧ c6Resp.Status = "processing" ∧ c6Resp.Query = c6Req.Query ∧
    c6Resp.Deadline = c6Req.Deadline ∧ c6Resp.CreatedAt = c6Deps.now ∧
    c6Resp.UpdatedAt = c6Deps.now ∧
    ∃ (first : models.Flight),
      (∃ params dd rd rec,
        c6Deps.extract ⟨c6Req.Query, c6Req.Deadline⟩ = .ok params ∧
        params.DepartureDate = some dd ∧ params.ReturnDate = some rd ∧
        c6Deps.recommend (service.recommendationRequest params dd rd) = .ok rec ∧
        rec.Recommendations.head? = some first) ∧
      c6Resp.FlightDetails = some ⟨first.Airline, first.FlightNumber, first.DepartureCity,
        first.DepartureTime, first.ArrivalCity, first.ArrivalTime, "", 0, "", 0, 0,
        first.Price, "USD"⟩ ∧
      c6Resp.Message = "Searching for flights to " ++ first.ArrivalCity :=
  C6_booking_response_amended c6Deps c6Req c6Resp rfl



theorem lookupTool_append_self (reg : tools.ToolRegistry) (n : String) (t : tools.Tool)
    (h : tools.lookupTool reg n = none) :
    tools.lookupTool (reg ++ [(n, t)]) n = some t := by
  induction reg with
  | nil => simp [tools.lookupTool]
  | cons kv rest ih =>
    obtain ⟨k, t'⟩ := kv
    unfold tools.lookupTool at h
    simp only [List.cons_append]
    unfold tools.lookupTool
    by_cases hk : k = n
    · simp [hk] at h
    · rw [if_neg hk] at h ⊢
      exact ih h

theorem RegisterTool_ok_eq {reg reg' : tools.ToolRegistry} {t : tools.Tool}
    (h : tools.RegisterTool reg (some t) = .ok reg') :
    tools.lookupTool reg t.Name = none ∧ reg' = reg ++ [(t.Name, t)] := by
  unfold tools.RegisterTool at h
  dsimp only at h
  by_cases hl : (tools.lookupTool reg t.Name).isSome = true
  · rw [if_pos hl] at h
    exact absurd h (by simp)
  · rw [if_neg hl] at h
    refine ⟨Option.not_isSome_iff_eq_none.mp hl, ?_⟩
    cases hp : t.Parameters with
    | none => rw [hp] at h; exact absurd h (by simp)
    | some ps =>
      rw [hp] at h
      dsimp only at h
      by_cases h1 : (Json.getField ps "type").isNone = true
      · rw [if_pos h1] at h; exact absurd h (by simp)
      · rw [if_neg h1] at h
        by_cases h2 : (Json.getField ps "properties").isNone = true
        · rw [if_pos h2] at h; exact absurd h (by simp)
        · rw [if_neg h2] at h
          cases hpf : Json.getField ps "properties" with
          | none => simp [hpf] at h2
          | some v =>
            rw [hpf] at h
            cases v with
            | obj props =>
              dsimp only at h
              cases hfb : tools.firstBadProp props with
              | none => rw [hfb] at h; exact absurd h (by simp)
              | some o =>
                rw [hfb] at h
                cases o with
                | some p => exact absurd h (by simp)
                | none => dsimp only at h; cases h; rfl
            | null => exact absurd h (by simp)
            | bool b => exact absurd h (by simp)
            | num q => exact absurd h (by simp)
            | str s => exact absurd h (by simp)
            | arr xs => exact absurd h (by simp)

/-- C8: registering a second tool under an already-registered name fails
with the duplicate-tool error and leaves the registry exactly as the first
registration produced it — the name still maps to the first tool. -/
theorem C8_duplicate_registration
    (reg reg' : tools.ToolRegistry) (t t' : tools.Tool)
    (hok : tools.RegisterTool reg (some t) = .ok reg')
    (hname : t'.Name = t.Name) :
    tools.RegisterTool reg' (some t') = .err (.duplicate t.Name) reg' ∧
    tools.lookupTool reg' t.Name = some t := by
  obtain ⟨hnone, rfl⟩ := RegisterTool_ok_eq hok
  have hmem : tools.lookupTool (reg ++ [(t.Name, t)]) t.Name = some t :=
    lookupTool_append_self reg t.Name t hnone
  refine ⟨?_, hmem⟩
  unfold tools.RegisterTool
  dsimp only
  rw [hname, hmem]
  rfl


/-- C8 witness: registering `w8Tool2` after `w8Tool` under the same name
is rejected as a duplicate and the registry still maps the name to
`w8Tool`. -/
theorem C8_duplicate_registration_witness :
    tools.RegisterTool [("searchFlights", w8Tool)] (some w8Tool2) =
      .err (.duplicate "searchFlights") [("searchFlights", w8Tool)] ∧
    tools.lookupTool [("searchFlights", w8Tool)] "searchFlights" = some w8Tool :=
  C8_duplicate_registration [] [("searchFlights", w8Tool)] w8Tool w8Tool2 rfl rfl

theorem firstBadProp_finds (props : List (String × Json))
    (hobj : ∀ pr ∈ props, ∃ o, pr.2 = Json.obj o)
    (hbad : ∃ pr ∈ props, ∀ o, pr.2 = Json.obj o → Json.getField o "type" = none) :
    ∃ p, tools.firstBadProp props = some (some p) := by
  induction props with
  | nil =>
    obtain ⟨pr, hmem, -⟩ := hbad
    simp at hmem
  | cons hd rest ih =>
    obtain ⟨nm, sch⟩ := hd
    obtain ⟨o, ho⟩ := hobj (nm, sch) (by simp)
    dsimp only at ho
    subst ho
    unfold tools.firstBadProp
    by_cases hts : (Json.getField o "type").isNone = true
    · exact ⟨nm, by rw [if_pos hts]⟩
    · rw [if_neg hts]
      obtain ⟨pr, hmem, hbadpr⟩ := hbad
      rcases List.mem_cons.mp hmem with heq | hmem'
      · exfalso
        apply hts
        subst heq
        exact Option.isNone_iff_eq_none.mpr (hbadpr o rfl)
      · exact ih (fun pr h => hobj pr (List.mem_cons_of_mem _ h)) ⟨pr, hmem', hbadpr⟩

/-- C9: a tool whose non-nil parameter schema misses the "type" key or the
"properties" key, or declares a property whose (object) schema lacks a
"type" key, is rejected by `RegisterTool` with an invalid-schema error and
the registry is left unchanged (the tool is not added). -/
theorem C9_invalid_schema_rejected
    (reg : tools.ToolRegistry) (t : tools.Tool) (ps : List (String × Json))
    (hl : tools.lookupTool reg t.Name = none)
    (hp : t.Parameters = some ps)
    (hbad : Json.getField ps "type" = none ∨
      Json.getField ps "properties" = none ∨
      (∃ props, Json.getField ps "properties" = some (.obj props) ∧
        (∀ pr ∈ props, ∃ o, pr.2 = Json.obj o) ∧
        (∃ pr ∈ props, ∀ o, pr.2 = Json.obj o → Json.getField o "type" = none))) :
    ∃ e, e.isSchemaErr = true ∧ tools.RegisterTool reg (some t) = .err e reg := by
  have hls : ¬ (tools.lookupTool reg t.Name).isSome = true := by simp [hl]
  unfold tools.RegisterTool
  dsimp only
  rw [if_neg hls, hp]
  dsimp only
  by_cases ht : (Json.getField ps "type").isNone = true
  · exact ⟨.missingType t.Name, rfl, by rw [if_pos ht]⟩
  · rw [if_neg ht]
    by_cases hpr : (Json.getField ps "properties").isNone = true
    · exact ⟨.missingProperties t.Name, rfl, by rw [if_pos hpr]⟩
    · rw [if_neg hpr]
      rcases hbad with h1 | h2 | ⟨props, hpf, hobj, hbadpr⟩
      · exact absurd (Option.isNone_iff_eq_none.mpr h1) ht
      · exact absurd (Option.isNone_iff_eq_none.mpr h2) hpr
      · rw [hpf]
        dsimp only
        obtain ⟨p, hp'⟩ := firstBadProp_finds props hobj hbadpr
        rw [hp']
        exact ⟨.propMissingType t.Name p, rfl, rfl⟩

/-- C9 witness: registering `w9Tool` into the empty registry is rejected
with an invalid-schema error, leaving the registry empty. -/
theorem C9_invalid_schema_rejected_witness :
    ∃ e, tools.RegErr.isSchemaErr e = true ∧
      tools.RegisterTool [] (some w9Tool) = .err e [] :=
  C9_invalid_schema_rejected [] w9Tool [("type", .str "object")] rfl rfl
    (Or.inr (Or.inl rfl))



/-- C10: marshalling a flight with positive price, non-empty airline and
non-empty flight number to the provider-expected JSON shape (inside a
recommendation document with non-empty reasoning) and decoding it back
through the flight-recommendation decoder reproduces the flight
field-for-field. -/
theorem C10_flight_round_trip (f : ai.Flight) (reasoning : String)
    (hp : 0 < f.EstimatedPrice) (ha : f.Airline ≠ "") (hf : f.FlightNumber ≠ "")
    (hr : reasoning ≠ "") :
    ai.FlightRecommendationDecoder.DecodeResponse
        (.json (ai.marshalFlightRecommendation ⟨[f], reasoning⟩)) =
      .ok ⟨[f], reasoning⟩ := by
  have hu : ai.unmarshalFlightRecommendation (ai.marshalFlightRecommendation ⟨[f], reasoning⟩) =
      .ok ⟨[f], reasoning⟩ := rfl
  unfold ai.FlightRecommendationDecoder.DecodeResponse
  dsimp only
  rw [hu]
  dsimp only
  have hvl : ai.FlightRecommendationDecoder.validateList 0 [f] = none := by
    unfold ai.FlightRecommendationDecoder.validateList
    rw [if_neg ha, if_neg hf, if_neg (not_le.mpr hp)]
    rfl
  have hv : ai.FlightRecommendationDecoder.validate ⟨[f], reasoning⟩ = none := by
    unfold ai.FlightRecommendationDecoder.validate
    dsimp only
    rw [if_neg (by simp : ¬ ([f] : List ai.Flight).length = 0), hvl]
    dsimp only
    rw [if_neg hr]
  rw [hv]

/-- C10 witness: the round trip at a concrete flight. -/
theorem C10_flight_round_trip_witness :
    ai.FlightRecommendationDecoder.DecodeResponse
        (.json (ai.marshalFlightRecommendation ⟨[w10Flight], "direct and within budget"⟩)) =
      .ok ⟨[w10Flight], "direct and within budget"⟩ :=
  C10_flight_round_trip w10Flight "direct and within budget"
    (by decide) (by decide) (by decide) (by decide)



theorem processToolCallsLoop_ok_names (reg : tools.ToolRegistry) :
    ∀ (calls : List ai.ToolCall) (results : List ai.ToolResult) (names : List String),
      ai.processToolCallsLoop reg calls = (.ok results, names) →
      names = calls.map (fun call => call.FunctionName) := by
  intro calls
  induction calls with
  | nil =>
    intro results names h
    unfold ai.processToolCallsLoop at h
    simp only [Prod.mk.injEq] at h
    exact h.2.symm
  | cons call rest ih =>
    intro results names h
    unfold ai.processToolCallsLoop at h
    cases hg : tools.GetTool reg call.FunctionName with
    | mk tO b =>
      rw [hg] at h
      cases b with
      | false => cases tO <;> simp at h
      | true =>
        cases tO with
        | none => simp at h
        | some t =>
          dsimp only at h
          cases hargs : ai.parseToolArguments call.FunctionArguments with
          | error e => rw [hargs] at h; simp at h
          | ok args =>
            rw [hargs] at h
            dsimp only at h
            cases hex : t.Execute args with
            | error msg => rw [hex] at h; simp at h
            | ok result =>
              rw [hex] at h
              dsimp only at h
              cases hrec : ai.processToolCallsLoop reg rest with
              | mk r names' =>
                rw [hrec] at h
                dsimp only at h
                cases r with
                | error e => simp [Except.map] at h
                | ok rs =>
                  simp only [Except.map, Prod.mk.injEq] at h
                  rw [← h.2, ih rs names' hrec]
                  simp

theorem processToolCalls_ok_names (regO : Option tools.ToolRegistry)
    (calls : List ai.ToolCall) (results : List ai.ToolResult) (names : List String)
    (h : ai.processToolCalls regO calls = (.ok results, names)) :
    names = calls.map (fun call => call.FunctionName) := by
  cases regO with
  | none => simp [ai.processToolCalls] at h
  | some reg => exact processToolCallsLoop_ok_names reg calls results names h

/-- C1: every `ProcessRequest` invocation issues exactly one outbound
provider HTTP call; and when the top choice of the provider response
carries tool calls and their processing succeeds, the collected
`{tool_call_id, name, result}` tuples are serialized to JSON and that text
is handed directly to the supplied decoding strategy — whose result the engine returns unchanged — while the executed tools are exactly the named ones, in
order; no second provider call happens in the same invocation. -/
theorem C1_single_provider_call {T R : Type} (engine : ai.InferenceEngine)
    (oracle : ai.ProviderOracle) (promptStrategy : ai.PromptStrategy R) (request : R)
    (decode : Content → Except DecodeErr T) :
    (ai.ProcessRequest engine oracle promptStrategy request decode).2.providerCalls = 1 ∧
    (∀ (resp : ai.AIProviderResponse) (c0 : ai.Choice) (rest : List ai.Choice)
        (results : List ai.ToolResult) (names : List String),
      oracle.respond 0 (ai.buildRequest engine promptStrategy request) = .response resp →
      resp.Error = none →
      resp.Choices = c0 :: rest →
      c0.Message.ToolCalls ≠ [] →
      ai.processToolCalls engine.toolRegistry c0.Message.ToolCalls = (.ok results, names) →
      (ai.ProcessRequest engine oracle promptStrategy request decode).1 =
        (decode (.json (ai.encodeToolResults results))).mapError .decodeFailed ∧
      (ai.ProcessRequest engine oracle promptStrategy request decode).2.toolsExecuted = names ∧
      names = c0.Message.ToolCalls.map (fun call => call.FunctionName)) := by
  constructor
  · unfold ai.ProcessRequest
    cases ho : oracle.respond 0 (ai.buildRequest engine promptStrategy request) with
    | transportError msg => rfl
    | invalidEnvelope => rfl
    | response resp =>
      dsimp only
      cases he : resp.Error with
      | some m => rfl
      | none =>
        dsimp only
        cases hc : resp.Choices with
        | nil => rfl
        | cons c0 rest =>
          dsimp only
          by_cases htc : c0.Message.ToolCalls.length > 0
          · rw [if_pos htc]
            cases hpt : ai.processToolCalls engine.toolRegistry c0.Message.ToolCalls with
            | mk fst names => cases fst <;> rfl
          · rw [if_neg htc]
  · intro resp c0 rest results names ho he hc htc hpt
    unfold ai.ProcessRequest
    rw [ho]
    dsimp only
    rw [he]
    dsimp only
    rw [hc]
    dsimp only
    rw [if_pos (by simpa using List.length_pos.mpr htc), hpt]
    exact ⟨rfl, rfl, processToolCalls_ok_names engine.toolRegistry c0.Message.ToolCalls
      results names hpt⟩


/-- C1 witness: the concrete tool-calling run makes exactly one provider
call, hands the serialized tool results to the decoding strategy, and
executes exactly the named tool. -/
theorem C1_single_provider_call_witness :
    (ai.ProcessRequest w1Engine w1Oracle w1PS () w1Decode).2.providerCalls = 1 ∧
    (ai.ProcessRequest w1Engine w1Oracle w1PS () w1Decode).1 =
      (w1Decode (.json (ai.encodeToolResults w1Results))).mapError .decodeFailed ∧
    (ai.ProcessRequest w1Engine w1Oracle w1PS () w1Decode).2.toolsExecuted = ["getWeather"] := by
  have h := C1_single_provider_call w1Engine w1Oracle w1PS () w1Decode
  have h2 := h.2 w1Resp ⟨⟨"assistant", .json .null, [w1Call]⟩, "tool_calls"⟩ [] w1Results
    ["getWeather"] rfl rfl rfl (by simp) rfl
  exact ⟨h.1, h2.1, h2.2.1⟩

